import Mathlib

/-!
# Verification of the lekha-server authentication core

A shallow embedding in Lean 4 of the authentication and session-lifecycle
subsystem of the `lekha-server` repository:

* `src/utils/jwt.rs` — signed access-credential minting and verification,
* `src/services/token_service.rs` — `TokenService` (access tokens, refresh
  sessions),
* `src/repositories/refresh_token_repository.rs`,
  `src/repositories/user_repository.rs`,
  `src/repositories/oauth_account_repository.rs` — persistence primitives,
* `src/services/user_service/mod.rs` — `UserService` façade
  (`oauth_login`, `refresh_tokens`, `logout`, `logout_all`).

Modelling conventions:

* Instants are Unix timestamps in seconds (`Int`), matching chrono's
  `timestamp()`; `chrono::Duration::hours h` is `h * 3600` seconds and
  `Duration::days d` is `d * 86400` seconds.  The ambient clock
  `Utc::now()` becomes an explicit `now : Int` argument.
* The HMAC signature of a JWT is modelled symbolically: a signed token
  carries its claims and the secret it was signed with, and verification
  compares that secret with the verifier's secret.  This is the standard
  symbolic abstraction of an unforgeable MAC.
* `jsonwebtoken`'s `Validation::default()` validates `exp` with a default
  leeway of 60 seconds; the leeway is modelled explicitly.
* SHA-256 (`TokenService::hash_token`) is abstracted as an explicit
  function argument `hashFn : String → String`; properties that depend on
  collision resistance take the needed freshness facts as hypotheses.
* `uuid::Uuid::new_v4()` (the random raw refresh secret) is modelled as an
  explicit input supplied by a randomness oracle.
* Database state is explicit: each table is a list of rows, threaded
  through every operation.  `.one()` on a filtered select is `List.find?`;
  `delete_many().filter(..)` is `List.filter` with the negated predicate.
  Unique column constraints from the migrations (`users.username`,
  `users.email`, `oauth_accounts.(provider, provider_user_id)`,
  `refresh_tokens.token_hash`) make the corresponding inserts fallible.
-/

/-- Error type mirroring the variants of `ServiceError`
(`src/errors/service_error.rs`) reachable from the authentication core.
The spec's taxonomy names map as: RefreshInvalid ≙ `RefreshTokenNotFound`,
RefreshExpired ≙ `RefreshTokenExpired`, InvalidCredential ≙ `InvalidToken`,
ConfigurationError ≙ `MissingJwtSecret`, PersistenceError ≙ `Database`. -/
inductive ServiceError where
  | UserNotFound
  | TokenGenerationFailed
  | InvalidToken
  | MissingJwtSecret
  | RefreshTokenNotFound
  | RefreshTokenExpired
  | Database
  deriving DecidableEq, Repr

/-- JWT claims struct from `src/utils/jwt.rs` (`Claims { sub, exp, iat }`). -/
structure Claims where
  sub : String
  exp : Int
  iat : Int
  deriving DecidableEq, Repr

/-- A compact signed token.  The signature is modelled symbolically:
`signedWith` records the secret the token was signed with, standing for the
HMAC-SHA256 signature produced by `jsonwebtoken::encode`. -/
structure SignedToken where
  claims : Claims
  signedWith : String
  deriving DecidableEq, Repr

/-- Distinguishes the `jsonwebtoken` verification failures relevant here;
both map to `ServiceError::InvalidToken` at the call sites. -/
inductive JwtError where
  | InvalidSignature
  | ExpiredSignature
  deriving DecidableEq, Repr

/-- Default leeway (seconds) of `jsonwebtoken::Validation::default()`,
applied when validating `exp`. -/
def jwt_default_leeway : Int := 60

/-- Model of `jwt::generate_token` (`src/utils/jwt.rs:12-31`): embeds
`{sub = user_id, exp = now + expiration_hours hours, iat = now}` and signs
with `secret`. -/
def generate_token (user_id : Int) (secret : String) (expiration_hours : Int)
    (now : Int) : SignedToken :=
  let expires_at := now + expiration_hours * 3600
  { claims := { sub := toString user_id, exp := expires_at, iat := now },
    signedWith := secret }

/-- Model of `jwt::verify_token` (`src/utils/jwt.rs:33-42`): decodes with
`Validation::default()`, which checks the signature and rejects tokens whose
`exp` lies more than the default leeway in the past. -/
def verify_token (tok : SignedToken) (secret : String) (now : Int) :
    Except JwtError Claims :=
  if tok.signedWith ≠ secret then .error .InvalidSignature
  else if tok.claims.exp < now - jwt_default_leeway then .error .ExpiredSignature
  else .ok tok.claims

/-- Model of `ACCESS_TOKEN_EXPIRATION_MINUTES` (`src/services/token_service.rs:8`). -/
def ACCESS_TOKEN_EXPIRATION_MINUTES : Int := 15

/-- Model of `REFRESH_TOKEN_EXPIRATION_DAYS` (`src/services/token_service.rs:9`). -/
def REFRESH_TOKEN_EXPIRATION_DAYS : Int := 7

/-- A row of the `refresh_tokens` table.  The entity module
(`src/entities/refresh_token.rs`) is not among the provided sources, but the
row shape is fixed by the migration
(`migration/src/m20250102_000001_create_refresh_tokens.rs`) and by
`RefreshTokenRepository::create`: `{id, user_id, token_hash, expires_at,
created_at}` with `token_hash` unique. -/
structure RefreshRecord where
  id : Int
  user_id : Int
  token_hash : String
  expires_at : Int
  created_at : Int
  deriving DecidableEq, Repr

/-- The `refresh_tokens` table plus the auto-increment counter backing the
primary key. -/
structure RefreshStore where
  records : List RefreshRecord
  next_id : Int
  deriving DecidableEq, Repr

namespace RefreshTokenRepository

/-- Model of `RefreshTokenRepository::create` (`refresh_token_repository.rs:17-34`):
inserts a row; the unique key on `token_hash` (from the migration) makes the
insert fail — surfacing as `DbErr` — when a row with the same hash exists. -/
def create (store : RefreshStore) (user_id : Int) (token_hash : String)
    (expires_at : Int) (now : Int) : Option (RefreshRecord × RefreshStore) :=
  if store.records.any (fun r => r.token_hash = token_hash) then none
  else
    let rec_ : RefreshRecord :=
      { id := store.next_id, user_id := user_id, token_hash := token_hash,
        expires_at := expires_at, created_at := now }
    some (rec_, { records := store.records ++ [rec_], next_id := store.next_id + 1 })

/-- Model of `RefreshTokenRepository::find_by_token_hash`
(`refresh_token_repository.rs:37-45`): `.filter(TokenHash.eq h).one()`. -/
def find_by_token_hash (store : RefreshStore) (token_hash : String) :
    Option RefreshRecord :=
  store.records.find? (fun r => r.token_hash = token_hash)

/-- Model of `RefreshTokenRepository::delete_by_token_hash`
(`refresh_token_repository.rs:59-64`): `delete_many().filter(TokenHash.eq h)`. -/
def delete_by_token_hash (store : RefreshStore) (token_hash : String) :
    RefreshStore :=
  { store with records := store.records.filter (fun r => ¬ r.token_hash = token_hash) }

/-- Model of `RefreshTokenRepository::delete_by_user_id`
(`refresh_token_repository.rs:67-72`): `delete_many().filter(UserId.eq u)`. -/
def delete_by_user_id (store : RefreshStore) (user_id : Int) : RefreshStore :=
  { store with records := store.records.filter (fun r => ¬ r.user_id = user_id) }

/-- Model of `RefreshTokenRepository::delete_expired`
(`refresh_token_repository.rs:75-82`): deletes rows with `expires_at < now`. -/
def delete_expired (store : RefreshStore) (now : Int) : RefreshStore :=
  { store with records := store.records.filter (fun r => ¬ r.expires_at < now) }

end RefreshTokenRepository

namespace TokenService

/-- Model of `TokenService::generate_access_token` (`token_service.rs:28-35`): calls
`jwt::generate_token(user_id, secret, ACCESS_TOKEN_EXPIRATION_MINUTES / 60)`.
The third argument is `expiration_hours`; `15 / 60` is `i64` division. -/
def generate_access_token (jwt_secret : String) (user_id : Int) (now : Int) :
    SignedToken :=
  generate_token user_id jwt_secret (ACCESS_TOKEN_EXPIRATION_MINUTES / 60) now

/-- Model of `TokenService::generate_refresh_token` (`token_service.rs:38-50`):
generates a random UUID `raw` (here an explicit input), stores
`{user_id, hashFn raw, now + 7 days}` and returns `raw`.  A `DbErr` from the
unique `token_hash` constraint propagates via `ServiceError::Database`. -/
def generate_refresh_token (hashFn : String → String) (raw : String)
    (user_id : Int) (now : Int) (store : RefreshStore) :
    Except ServiceError (String × RefreshStore) :=
  let token_hash := hashFn raw
  let expires_at := now + REFRESH_TOKEN_EXPIRATION_DAYS * 86400
  match RefreshTokenRepository.create store user_id token_hash expires_at now with
  | none => .error .Database
  | some (_, store') => .ok (raw, store')

/-- Model of `TokenService::refresh_access_token` (`token_service.rs:53-76`): hashes
the presented secret, looks the row up, fails `RefreshTokenNotFound` when
absent; when present but expired, deletes the row and fails
`RefreshTokenExpired`; otherwise mints a fresh access token and returns it
with the owning user id.  The final store is returned alongside the result
because the expired branch mutates it. -/
def refresh_access_token (hashFn : String → String) (jwt_secret : String)
    (refresh_token : String) (now : Int) (store : RefreshStore) :
    Except ServiceError (SignedToken × Int) × RefreshStore :=
  let token_hash := hashFn refresh_token
  match RefreshTokenRepository.find_by_token_hash store token_hash with
  | none => (.error .RefreshTokenNotFound, store)
  | some stored =>
    if stored.expires_at < now then
      (.error .RefreshTokenExpired,
        RefreshTokenRepository.delete_by_token_hash store token_hash)
    else
      (.ok (generate_access_token jwt_secret stored.user_id now, stored.user_id),
        store)

/-- Model of `TokenService::revoke_refresh_token` (`token_service.rs:79-85`): deletes
the row matching the hash and returns `Ok(())` (deleting zero rows is not an
error). -/
def revoke_refresh_token (hashFn : String → String) (refresh_token : String)
    (store : RefreshStore) : RefreshStore :=
  RefreshTokenRepository.delete_by_token_hash store (hashFn refresh_token)

/-- Model of `TokenService::revoke_all_refresh_tokens` (`token_service.rs:88-91`). -/
def revoke_all_refresh_tokens (user_id : Int) (store : RefreshStore) :
    RefreshStore :=
  RefreshTokenRepository.delete_by_user_id store user_id

end TokenService

/-- OAuth provider enum (`src/entities/oauth_account.rs`): google, kakao,
naver. -/
inductive OAuthProvider where
  | google
  | kakao
  | naver
  deriving DecidableEq, Repr

/-- A row of the `users` table (`src/entities/user.rs`): unique `username`
and `email`. -/
structure UserRow where
  id : Int
  username : String
  email : String
  password_hash : Option String
  created_at : Int
  updated_at : Int
  deriving DecidableEq, Repr

/-- A row of the `oauth_accounts` table (`src/entities/oauth_account.rs`);
`(provider, provider_user_id)` is unique per the migration
`m20241222_000001_add_oauth_accounts.rs`. -/
structure OAuthRow where
  id : Int
  user_id : Int
  provider : OAuthProvider
  provider_user_id : String
  created_at : Int
  updated_at : Int
  deriving DecidableEq, Repr

/-- The persistent state seen by `UserService`: the three tables and the
auto-increment counters backing their primary keys. -/
structure Db where
  users : List UserRow
  oauth_accounts : List OAuthRow
  refresh : RefreshStore
  next_user_id : Int
  next_oauth_id : Int
  deriving DecidableEq, Repr

namespace UserRepository

/-- Model of `UserRepository::find_by_id` (`user_repository.rs:17-19`). -/
def find_by_id (db : Db) (id : Int) : Option UserRow :=
  db.users.find? (fun u => u.id = id)

/-- Model of `UserRepository::find_by_email` (`user_repository.rs:21-26`). -/
def find_by_email (db : Db) (email : String) : Option UserRow :=
  db.users.find? (fun u => u.email = email)

/-- Model of `UserRepository::create` (`user_repository.rs:35-53`): inserts a row;
the unique keys on `username` and `email` make the insert fail with a
`DbErr` when either value is already taken. -/
def create (db : Db) (username email : String) (password_hash : Option String)
    (now : Int) : Option (UserRow × Db) :=
  if db.users.any (fun u => u.username = username ∨ u.email = email) then none
  else
    let u : UserRow :=
      { id := db.next_user_id, username := username, email := email,
        password_hash := password_hash, created_at := now, updated_at := now }
    some (u, { db with users := db.users ++ [u], next_user_id := db.next_user_id + 1 })

end UserRepository

namespace OAuthAccountRepository

/-- Model of `OAuthAccountRepository::find_by_provider_and_id`
(`oauth_account_repository.rs:17-27`). -/
def find_by_provider_and_id (db : Db) (provider : OAuthProvider)
    (provider_user_id : String) : Option OAuthRow :=
  db.oauth_accounts.find?
    (fun a => a.provider = provider ∧ a.provider_user_id = provider_user_id)

/-- Model of `OAuthAccountRepository::create` (`oauth_account_repository.rs:40-56`):
inserts a row; the unique key on `(provider, provider_user_id)` makes the
insert fail with a `DbErr` when that pair is already linked. -/
def create (db : Db) (user_id : Int) (provider : OAuthProvider)
    (provider_user_id : String) (now : Int) : Option (OAuthRow × Db) :=
  if db.oauth_accounts.any
      (fun a => a.provider = provider ∧ a.provider_user_id = provider_user_id) then
    none
  else
    let a : OAuthRow :=
      { id := db.next_oauth_id, user_id := user_id, provider := provider,
        provider_user_id := provider_user_id, created_at := now, updated_at := now }
    some (a, { db with oauth_accounts := db.oauth_accounts ++ [a],
                       next_oauth_id := db.next_oauth_id + 1 })

end OAuthAccountRepository

/-- Model of `OAuthLoginRequest` (`src/models/user_dto.rs`). -/
structure OAuthLoginRequest where
  provider : OAuthProvider
  provider_user_id : String
  email : String
  username : String
  deriving DecidableEq, Repr

/-- Model of `UserResponse` (`src/models/user_dto.rs`). -/
structure UserResponse where
  id : Int
  username : String
  email : String
  created_at : Int
  deriving DecidableEq, Repr

/-- Model of `impl From<user::Model> for UserResponse` (`src/models/user_dto.rs`). -/
def UserResponse.fromUser (u : UserRow) : UserResponse :=
  { id := u.id, username := u.username, email := u.email,
    created_at := u.created_at }

/-- Model of `AuthResponse` as constructed by `UserService::oauth_login`
(`user_service/mod.rs:61-64`): carries the resolved user. -/
structure AuthResponse where
  user : UserResponse
  deriving DecidableEq, Repr

namespace UserService

/-- Model of `UserService::oauth_login` (`user_service/mod.rs:27-68`), evaluated in
strict order: (1) a matching `OAuthLink` resolves to its owning user (a
dangling link surfaces `UserNotFound`); (2) otherwise a user with the same
email gains a new link; (3) otherwise a new user and link are created.  The
resolved user then receives a freshly minted access token and a freshly
issued refresh session.  `raw_refresh` is the UUID the randomness oracle
supplies to `generate_refresh_token`. -/
def oauth_login (hashFn : String → String) (jwt_secret : String)
    (req : OAuthLoginRequest) (raw_refresh : String) (now : Int) (db : Db) :
    Except ServiceError (AuthResponse × SignedToken × String) × Db :=
  let resolved : Except ServiceError (UserRow × Db) :=
    match OAuthAccountRepository.find_by_provider_and_id db req.provider
        req.provider_user_id with
    | some oauth_account =>
      match UserRepository.find_by_id db oauth_account.user_id with
      | none => .error .UserNotFound
      | some u => .ok (u, db)
    | none =>
      let created : Except ServiceError (UserRow × Db) :=
        match UserRepository.find_by_email db req.email with
        | some existing_user => .ok (existing_user, db)
        | none =>
          match UserRepository.create db req.username req.email none now with
          | none => .error .Database
          | some (u, db') => .ok (u, db')
      match created with
      | .error e => .error e
      | .ok (u, db') =>
        match OAuthAccountRepository.create db' u.id req.provider
            req.provider_user_id now with
        | none => .error .Database
        | some (_, db'') => .ok (u, db'')
  match resolved with
  | .error e => (.error e, db)
  | .ok (user, db') =>
    let access_token := TokenService.generate_access_token jwt_secret user.id now
    match TokenService.generate_refresh_token hashFn raw_refresh user.id now
        db'.refresh with
    | .error e => (.error e, db')
    | .ok (refresh_token, store') =>
      (.ok ({ user := UserResponse.fromUser user }, access_token, refresh_token),
        { db' with refresh := store' })

/-- Model of `UserService::refresh_tokens` (`user_service/mod.rs:71-87`): redeem the
old secret via `TokenService::refresh_access_token`, issue a new refresh
session (`new_raw` is the fresh UUID), then revoke the redeemed secret.
Returns `(access_token, new_refresh_token, user_id)`. -/
def refresh_tokens (hashFn : String → String) (jwt_secret : String)
    (refresh_token new_raw : String) (now : Int) (store : RefreshStore) :
    Except ServiceError (SignedToken × String × Int) × RefreshStore :=
  match TokenService.refresh_access_token hashFn jwt_secret refresh_token now
      store with
  | (.error e, store') => (.error e, store')
  | (.ok (access_token, user_id), store') =>
    match TokenService.generate_refresh_token hashFn new_raw user_id now store' with
    | .error e => (.error e, store')
    | .ok (new_refresh_token, store'') =>
      (.ok (access_token, new_refresh_token, user_id),
        TokenService.revoke_refresh_token hashFn refresh_token store'')

/-- Model of `UserService::logout` (`user_service/mod.rs:90-92`): delegates to
`TokenService::revoke_refresh_token`; always `Ok(())`. -/
def logout (hashFn : String → String) (refresh_token : String)
    (store : RefreshStore) : Except ServiceError Unit × RefreshStore :=
  (.ok (), TokenService.revoke_refresh_token hashFn refresh_token store)

/-- Model of `UserService::logout_all` (`user_service/mod.rs:95-99`): delegates to
`TokenService::revoke_all_refresh_tokens`; always `Ok(())`. -/
def logout_all (user_id : Int) (store : RefreshStore) :
    Except ServiceError Unit × RefreshStore :=
  (.ok (), TokenService.revoke_all_refresh_tokens user_id store)

end UserService

/-! ## Concrete fixtures

Closed values used by the witness and counterexample theorems below.
`sampleHash` is an injective stand-in for SHA-256 that, like a hex digest,
never maps a string to itself. -/

/-- An injective stand-in for SHA-256 in closed evaluations. -/
def sampleHash : String → String := fun s => "h-" ++ s

/-- An unexpired refresh-session row whose hash is `sampleHash "raw"`. -/
def sampleRecord : RefreshRecord :=
  { id := 1, user_id := 42, token_hash := sampleHash "raw",
    expires_at := 1000, created_at := 0 }

/-- A store holding only `sampleRecord`. -/
def sampleStore : RefreshStore := { records := [sampleRecord], next_id := 2 }

/-- A refresh-session row already past expiry at time 100. -/
def expiredRecord : RefreshRecord :=
  { id := 1, user_id := 42, token_hash := sampleHash "raw",
    expires_at := 5, created_at := 0 }

/-- A store holding only `expiredRecord`. -/
def expiredStore : RefreshStore := { records := [expiredRecord], next_id := 2 }

/-- An empty refresh-session store. -/
def emptyStore : RefreshStore := { records := [], next_id := 1 }

/-- A user row for the identity-resolution fixtures. -/
def sampleUser : UserRow :=
  { id := 7, username := "alice", email := "a@x.com", password_hash := none,
    created_at := 0, updated_at := 0 }

/-- An OAuth link owned by `sampleUser` for `(google, g1)`. -/
def sampleLink : OAuthRow :=
  { id := 3, user_id := 7, provider := .google, provider_user_id := "g1",
    created_at := 0, updated_at := 0 }

/-- A database in which `sampleUser` is already linked via `sampleLink`. -/
def sampleDb : Db :=
  { users := [sampleUser], oauth_accounts := [sampleLink],
    refresh := emptyStore, next_user_id := 8, next_oauth_id := 4 }

/-- A login request matching `sampleLink` but carrying a different email and
username than the stored user. -/
def sampleReq : OAuthLoginRequest :=
  { provider := .google, provider_user_id := "g1",
    email := "other@x.com", username := "other" }

/-- An entirely empty database. -/
def emptyDb : Db :=
  { users := [], oauth_accounts := [], refresh := emptyStore,
    next_user_id := 1, next_oauth_id := 1 }

/-- First-login request: provider google, external id g1, email a@x.com. -/
def reqA : OAuthLoginRequest :=
  { provider := .google, provider_user_id := "g1",
    email := "a@x.com", username := "alice" }

/-- Second-login request: provider kakao, new external id, same email. -/
def reqB : OAuthLoginRequest :=
  { provider := .kakao, provider_user_id := "k1",
    email := "a@x.com", username := "alice2" }

/-! ## General lemmas about the embedded list operations -/

/-- Helper: appending after a list with no match leaves `find?` to the tail. -/
theorem find?_append_of_left_none {α : Type} (p : α → Bool) (l₁ l₂ : List α)
    (h : l₁.find? p = none) : (l₁ ++ l₂).find? p = l₂.find? p := by
  induction l₁ with
  | nil => rfl
  | cons a l ih =>
    rw [List.find?_eq_none] at h
    have hpa : p a = false := by
      have := h a (by simp)
      simpa using this
    rw [List.cons_append, List.find?_cons, hpa]
    refine ih ?_
    rw [List.find?_eq_none]
    exact fun x hx => h x (by simp [hx])

/-- Helper: a list whose `any` is false for a predicate has no `find?` hit. -/
theorem find?_none_of_any_false {α : Type} (p : α → Bool) (l : List α)
    (h : l.any p = false) : l.find? p = none := by
  rw [List.find?_eq_none]
  exact fun x hx => List.any_eq_false.mp h x hx

/-- Helper: after filtering out every row with a given hash, no row with that
hash can be found. -/
theorem find?_hash_filter_ne (l : List RefreshRecord) (h : String) :
    (l.filter (fun r => ¬ r.token_hash = h)).find?
      (fun r => r.token_hash = h) = none := by
  rw [List.find?_eq_none]
  intro x hx
  have hmem := List.mem_filter.mp hx
  simpa using hmem.2

/-- Helper: redeeming a secret whose hash matches no stored row fails with
`RefreshTokenNotFound` and leaves the store unchanged. -/
theorem refresh_access_token_not_found (hashFn : String → String)
    (secret raw : String) (now : Int) (store : RefreshStore)
    (h : RefreshTokenRepository.find_by_token_hash store (hashFn raw) = none) :
    TokenService.refresh_access_token hashFn secret raw now store
      = (.error .RefreshTokenNotFound, store) := by
  simp [TokenService.refresh_access_token, h]

/-- Helper: the façade refresh on a secret whose hash matches no stored row
fails with `RefreshTokenNotFound` and leaves the store unchanged. -/
theorem refresh_tokens_not_found (hashFn : String → String)
    (secret raw new_raw : String) (now : Int) (store : RefreshStore)
    (h : RefreshTokenRepository.find_by_token_hash store (hashFn raw) = none) :
    UserService.refresh_tokens hashFn secret raw new_raw now store
      = (.error .RefreshTokenNotFound, store) := by
  rw [UserService.refresh_tokens,
    refresh_access_token_not_found hashFn secret raw now store h]

/-- Helper: the linked branch of `oauth_login`.  When a matching OAuth link
exists and its owner is present, login returns the owner unchanged and only
appends a refresh-session row. -/
theorem oauth_login_linked_eq (hashFn : String → String) (secret : String)
    (req : OAuthLoginRequest) (raw : String) (now : Int) (db : Db)
    (link : OAuthRow) (owner : UserRow)
    (hlink : OAuthAccountRepository.find_by_provider_and_id db req.provider
      req.provider_user_id = some link)
    (howner : UserRepository.find_by_id db link.user_id = some owner)
    (hfresh : db.refresh.records.any (fun r => r.token_hash = hashFn raw)
      = false) :
    UserService.oauth_login hashFn secret req raw now db
      = (.ok ({ user := UserResponse.fromUser owner },
              TokenService.generate_access_token secret owner.id now, raw),
         { db with refresh :=
             { records := db.refresh.records ++
                 [({ id := db.refresh.next_id, user_id := owner.id,
                     token_hash := hashFn raw,
                     expires_at := now + REFRESH_TOKEN_EXPIRATION_DAYS * 86400,
                     created_at := now } : RefreshRecord)],
               next_id := db.refresh.next_id + 1 } }) := by
  simp only [UserService.oauth_login, hlink, howner,
    TokenService.generate_refresh_token, RefreshTokenRepository.create, hfresh]
  rfl

/-- Helper: the email-link branch of `oauth_login`.  With no matching OAuth
link but an existing user under the request's email, login attaches a new
link to that user, creates no user row, and appends a refresh-session row. -/
theorem oauth_login_email_linked_eq (hashFn : String → String)
    (secret : String) (req : OAuthLoginRequest) (raw : String) (now : Int)
    (db : Db) (u : UserRow)
    (hlink : OAuthAccountRepository.find_by_provider_and_id db req.provider
      req.provider_user_id = none)
    (hemail : UserRepository.find_by_email db req.email = some u)
    (hfresh : db.refresh.records.any (fun r => r.token_hash = hashFn raw)
      = false) :
    UserService.oauth_login hashFn secret req raw now db
      = (.ok ({ user := UserResponse.fromUser u },
              TokenService.generate_access_token secret u.id now, raw),
         { db with
           oauth_accounts := db.oauth_accounts ++
             [({ id := db.next_oauth_id, user_id := u.id,
                 provider := req.provider,
                 provider_user_id := req.provider_user_id,
                 created_at := now, updated_at := now } : OAuthRow)],
           refresh :=
             { records := db.refresh.records ++
                 [({ id := db.refresh.next_id, user_id := u.id,
                     token_hash := hashFn raw,
                     expires_at := now + REFRESH_TOKEN_EXPIRATION_DAYS * 86400,
                     created_at := now } : RefreshRecord)],
               next_id := db.refresh.next_id + 1 },
           next_oauth_id := db.next_oauth_id + 1 }) := by
  have hany : db.oauth_accounts.any
      (fun a => a.provider = req.provider
        ∧ a.provider_user_id = req.provider_user_id) = false :=
    List.any_eq_false.mpr (List.find?_eq_none.mp hlink)
  have hany2 : ¬ ∃ x ∈ db.oauth_accounts,
      x.provider = req.provider ∧ x.provider_user_id = req.provider_user_id := by
    simpa using hany
  have hfresh2 : ¬ ∃ x ∈ db.refresh.records, x.token_hash = hashFn raw := by
    simpa using hfresh
  simp [UserService.oauth_login, hlink, hemail,
    OAuthAccountRepository.create, hany2,
    TokenService.generate_refresh_token, RefreshTokenRepository.create, hfresh2]

/-- Helper: the fresh-user branch of `oauth_login`.  With no matching OAuth
link, no user under the email and no username clash, login creates a new
user row and a new link and appends a refresh-session row. -/
theorem oauth_login_new_user_eq (hashFn : String → String) (secret : String)
    (req : OAuthLoginRequest) (raw : String) (now : Int) (db : Db)
    (hlink : OAuthAccountRepository.find_by_provider_and_id db req.provider
      req.provider_user_id = none)
    (hemail : UserRepository.find_by_email db req.email = none)
    (huniq : db.users.any
      (fun v => v.username = req.username ∨ v.email = req.email) = false)
    (hfresh : db.refresh.records.any (fun r => r.token_hash = hashFn raw)
      = false) :
    UserService.oauth_login hashFn secret req raw now db
      = (.ok ({ user := UserResponse.fromUser
                  { id := db.next_user_id, username := req.username,
                    email := req.email, password_hash := none,
                    created_at := now, updated_at := now } },
              TokenService.generate_access_token secret db.next_user_id now,
              raw),
         { users := db.users ++
             [({ id := db.next_user_id, username := req.username,
                 email := req.email, password_hash := none,
                 created_at := now, updated_at := now } : UserRow)],
           oauth_accounts := db.oauth_accounts ++
             [({ id := db.next_oauth_id, user_id := db.next_user_id,
                 provider := req.provider,
                 provider_user_id := req.provider_user_id,
                 created_at := now, updated_at := now } : OAuthRow)],
           refresh :=
             { records := db.refresh.records ++
                 [({ id := db.refresh.next_id, user_id := db.next_user_id,
                     token_hash := hashFn raw,
                     expires_at := now + REFRESH_TOKEN_EXPIRATION_DAYS * 86400,
                     created_at := now } : RefreshRecord)],
               next_id := db.refresh.next_id + 1 },
           next_user_id := db.next_user_id + 1,
           next_oauth_id := db.next_oauth_id + 1 }) := by
  have hany : db.oauth_accounts.any
      (fun a => a.provider = req.provider
        ∧ a.provider_user_id = req.provider_user_id) = false :=
    List.any_eq_false.mpr (List.find?_eq_none.mp hlink)
  have huniq2 : ¬ ∃ x ∈ db.users,
      x.username = req.username ∨ x.email = req.email := by
    simpa using huniq
  have hany2 : ¬ ∃ x ∈ db.oauth_accounts,
      x.provider = req.provider ∧ x.provider_user_id = req.provider_user_id := by
    simpa using hany
  have hfresh2 : ¬ ∃ x ∈ db.refresh.records, x.token_hash = hashFn raw := by
    simpa using hfresh
  simp [UserService.oauth_login, hlink, hemail,
    UserRepository.create, huniq2,
    OAuthAccountRepository.create, hany2,
    TokenService.generate_refresh_token, RefreshTokenRepository.create, hfresh2]

/-! ## Claims -/

/-- C1: the spec states that a minted access credential embeds
`expires_at = t + 15 minutes` and verifies up to that instant, failing only
after it.  The code computes the `expiration_hours` argument of
`jwt::generate_token` as `ACCESS_TOKEN_EXPIRATION_MINUTES / 60 = 15 / 60 = 0`
(integer division), so every minted access token embeds `expires_at = t`
itself, and verification already fails 120 seconds after minting — within
the claimed 15-minute window — with only `jsonwebtoken`'s 60-second default
leeway keeping the token alive at all.  This contradicts the code's own
`ACCESS_TOKEN_EXPIRATION_MINUTES` constant, the function's 15-minute doc
comment and `access_token_max_age` (900 seconds): a code bug. -/
theorem C1_access_token_lifetime_bug :
    (∀ (secret : String) (uid t : Int),
        (TokenService.generate_access_token secret uid t).claims.exp = t)
    ∧ (TokenService.generate_access_token "secret" 1 0).claims.exp = 0
    ∧ verify_token (TokenService.generate_access_token "secret" 1 0) "secret" 120
        = .error .ExpiredSignature := by
  refine ⟨?_, rfl, rfl⟩
  intro secret uid t
  norm_num [TokenService.generate_access_token, generate_token,
    ACCESS_TOKEN_EXPIRATION_MINUTES]

/-- C2 counterexample: on a store holding one unexpired session for user 42,
the store-level redeem (`TokenService.refresh_access_token`) succeeds, and —
with no other operation in between — an immediate second redeem of the very
same secret succeeds again with the same user id instead of failing with
RefreshInvalid (`RefreshTokenNotFound`), because the success path of the
store-level redeem does not consume the record. -/
theorem C2_second_redeem_also_succeeds :
    (TokenService.refresh_access_token sampleHash "sec" "raw" 100 sampleStore).1
      = .ok (TokenService.generate_access_token "sec" 42 100, 42)
    ∧ (TokenService.refresh_access_token sampleHash "sec" "raw" 100
          (TokenService.refresh_access_token sampleHash "sec" "raw" 100
            sampleStore).2).1
      = .ok (TokenService.generate_access_token "sec" 42 100, 42)
    ∧ (TokenService.refresh_access_token sampleHash "sec" "raw" 100
          (TokenService.refresh_access_token sampleHash "sec" "raw" 100
            sampleStore).2).1
      ≠ .error .RefreshTokenNotFound := by
  refine ⟨rfl, rfl, fun hcontra => ?_⟩
  exact Except.noConfusion hcontra

/-- C2 (amended): redeeming a freshly issued, unexpired refresh secret at
the store level succeeds and returns the owning user id, and an immediate
second call with the same secret (no other operation in between) succeeds
again with the same user id — `TokenService.refresh_access_token` does not
consume the record.  At-most-once consumption of a refresh secret is
enforced one level up by `UserService.refresh_tokens`, whose revoke step
makes a repeated façade refresh fail (see C3). -/
theorem C2_store_level_redeem_does_not_consume (hashFn : String → String)
    (secret raw : String) (uid now now' : Int) (store : RefreshStore)
    (hfresh : store.records.any (fun r => r.token_hash = hashFn raw) = false)
    (hlive : ¬ now + REFRESH_TOKEN_EXPIRATION_DAYS * 86400 < now') :
    TokenService.generate_refresh_token hashFn raw uid now store
      = .ok (raw,
          { records := store.records ++
              [{ id := store.next_id, user_id := uid, token_hash := hashFn raw,
                 expires_at := now + REFRESH_TOKEN_EXPIRATION_DAYS * 86400,
                 created_at := now }],
            next_id := store.next_id + 1 })
    ∧ (TokenService.refresh_access_token hashFn secret raw now'
          { records := store.records ++
              [{ id := store.next_id, user_id := uid, token_hash := hashFn raw,
                 expires_at := now + REFRESH_TOKEN_EXPIRATION_DAYS * 86400,
                 created_at := now }],
            next_id := store.next_id + 1 }).1
        = .ok (TokenService.generate_access_token secret uid now', uid)
    ∧ (TokenService.refresh_access_token hashFn secret raw now'
          (TokenService.refresh_access_token hashFn secret raw now'
            { records := store.records ++
                [{ id := store.next_id, user_id := uid, token_hash := hashFn raw,
                   expires_at := now + REFRESH_TOKEN_EXPIRATION_DAYS * 86400,
                   created_at := now }],
              next_id := store.next_id + 1 }).2).1
        = .ok (TokenService.generate_access_token secret uid now', uid) := by
  have hissue : TokenService.generate_refresh_token hashFn raw uid now store
      = .ok (raw,
          { records := store.records ++
              [{ id := store.next_id, user_id := uid, token_hash := hashFn raw,
                 expires_at := now + REFRESH_TOKEN_EXPIRATION_DAYS * 86400,
                 created_at := now }],
            next_id := store.next_id + 1 }) := by
    simp [TokenService.generate_refresh_token, RefreshTokenRepository.create, hfresh]
  have hfind : RefreshTokenRepository.find_by_token_hash
      { records := store.records ++
          [{ id := store.next_id, user_id := uid, token_hash := hashFn raw,
             expires_at := now + REFRESH_TOKEN_EXPIRATION_DAYS * 86400,
             created_at := now }],
        next_id := store.next_id + 1 } (hashFn raw)
      = some { id := store.next_id, user_id := uid, token_hash := hashFn raw,
               expires_at := now + REFRESH_TOKEN_EXPIRATION_DAYS * 86400,
               created_at := now } := by
    unfold RefreshTokenRepository.find_by_token_hash
    rw [find?_append_of_left_none _ _ _ (find?_none_of_any_false _ _ hfresh)]
    simp [List.find?]
  have hred : TokenService.refresh_access_token hashFn secret raw now'
      { records := store.records ++
          [{ id := store.next_id, user_id := uid, token_hash := hashFn raw,
             expires_at := now + REFRESH_TOKEN_EXPIRATION_DAYS * 86400,
             created_at := now }],
        next_id := store.next_id + 1 }
      = (.ok (TokenService.generate_access_token secret uid now', uid),
         { records := store.records ++
             [{ id := store.next_id, user_id := uid, token_hash := hashFn raw,
                expires_at := now + REFRESH_TOKEN_EXPIRATION_DAYS * 86400,
                created_at := now }],
           next_id := store.next_id + 1 }) := by
    simp [TokenService.refresh_access_token, hfind, hlive]
  exact ⟨hissue, by rw [hred], by rw [hred, hred]⟩

/-- C2 witness: the amended C2 instantiated with concrete inputs. -/
theorem C2_store_level_redeem_witness :
    (TokenService.refresh_access_token sampleHash "sec" "raw" 100
        { records := emptyStore.records ++
            [{ id := emptyStore.next_id, user_id := 42,
               token_hash := sampleHash "raw",
               expires_at := 0 + REFRESH_TOKEN_EXPIRATION_DAYS * 86400,
               created_at := 0 }],
          next_id := emptyStore.next_id + 1 }).1
      = .ok (TokenService.generate_access_token "sec" 42 100, 42) :=
  (C2_store_level_redeem_does_not_consume sampleHash "sec" "raw" 42 0 100
    emptyStore (by decide) (by decide)).2.1

/-- C4: redeeming a refresh secret whose stored record is past expiry fails
with RefreshExpired (`RefreshTokenExpired`) and deletes the record, so a
subsequent redeem of the same secret fails with NotFound
(`RefreshTokenNotFound`), not Expired. -/
theorem C4_expired_redeem_deletes_record (hashFn : String → String)
    (secret raw : String) (now : Int) (store : RefreshStore)
    (stored : RefreshRecord)
    (hfind : RefreshTokenRepository.find_by_token_hash store (hashFn raw)
      = some stored)
    (hexp : stored.expires_at < now) :
    (TokenService.refresh_access_token hashFn secret raw now store).1
        = .error .RefreshTokenExpired
    ∧ RefreshTokenRepository.find_by_token_hash
        (TokenService.refresh_access_token hashFn secret raw now store).2
        (hashFn raw) = none
    ∧ (TokenService.refresh_access_token hashFn secret raw now
          (TokenService.refresh_access_token hashFn secret raw now store).2).1
        = .error .RefreshTokenNotFound := by
  have hstep : TokenService.refresh_access_token hashFn secret raw now store
      = (.error .RefreshTokenExpired,
         RefreshTokenRepository.delete_by_token_hash store (hashFn raw)) := by
    simp [TokenService.refresh_access_token, hfind, hexp]
  have hnone : RefreshTokenRepository.find_by_token_hash
      (RefreshTokenRepository.delete_by_token_hash store (hashFn raw))
      (hashFn raw) = none := by
    unfold RefreshTokenRepository.find_by_token_hash
      RefreshTokenRepository.delete_by_token_hash
    exact find?_hash_filter_ne store.records (hashFn raw)
  refine ⟨by rw [hstep], by rw [hstep]; exact hnone, ?_⟩
  rw [hstep]
  simp [TokenService.refresh_access_token, hnone]

/-- C4 witness: C4 instantiated with a store holding one expired record. -/
theorem C4_expired_redeem_witness :
    (TokenService.refresh_access_token sampleHash "sec" "raw" 100
        expiredStore).1 = .error .RefreshTokenExpired
    ∧ RefreshTokenRepository.find_by_token_hash
        (TokenService.refresh_access_token sampleHash "sec" "raw" 100
          expiredStore).2 (sampleHash "raw") = none
    ∧ (TokenService.refresh_access_token sampleHash "sec" "raw" 100
          (TokenService.refresh_access_token sampleHash "sec" "raw" 100
            expiredStore).2).1 = .error .RefreshTokenNotFound :=
  C4_expired_redeem_deletes_record sampleHash "sec" "raw" 100 expiredStore
    expiredRecord (by decide) (by decide)

/-- C7: `UserService.logout` succeeds for every raw refresh string — in
particular for one matching no stored session — and afterwards no record
whose hash matches that string remains findable; repeating the logout on the
already-revoked store changes nothing and is still a success. -/
theorem C7_logout_idempotent_success (hashFn : String → String) (raw : String)
    (store : RefreshStore) :
    (UserService.logout hashFn raw store).1 = .ok ()
    ∧ RefreshTokenRepository.find_by_token_hash
        (UserService.logout hashFn raw store).2 (hashFn raw) = none
    ∧ UserService.logout hashFn raw (UserService.logout hashFn raw store).2
        = UserService.logout hashFn raw store := by
  refine ⟨rfl, ?_, ?_⟩
  · exact find?_hash_filter_ne store.records (hashFn raw)
  · simp [UserService.logout, TokenService.revoke_refresh_token,
      RefreshTokenRepository.delete_by_token_hash, List.filter_filter]

/-- C8: `UserService.logout_all u` succeeds and deletes exactly the
refresh-session rows owned by `u`: a row remains in the store afterwards
precisely when it was there before and belongs to a different user. -/
theorem C8_logout_all_exact_frame (u : Int) (store : RefreshStore)
    (r : RefreshRecord) :
    (UserService.logout_all u store).1 = .ok ()
    ∧ (r ∈ (UserService.logout_all u store).2.records ↔
        (r ∈ store.records ∧ ¬ r.user_id = u)) := by
  refine ⟨rfl, ?_⟩
  simp [UserService.logout_all, TokenService.revoke_all_refresh_tokens,
    RefreshTokenRepository.delete_by_user_id, List.mem_filter]

/-- C10: whenever the store-level redeem
(`TokenService.refresh_access_token`) succeeds, the refresh-session store is
returned unchanged — the matched record is neither deleted nor modified and
no other record is touched; deletion happens only on the expired branch or
through an explicit revoke. -/
theorem C10_successful_redeem_leaves_store_unchanged
    (hashFn : String → String) (secret raw : String) (now : Int)
    (store : RefreshStore) (res : SignedToken × Int)
    (hok : (TokenService.refresh_access_token hashFn secret raw now store).1
      = .ok res) :
    (TokenService.refresh_access_token hashFn secret raw now store).2
      = store := by
  cases hfind : RefreshTokenRepository.find_by_token_hash store (hashFn raw) with
  | none => simp [TokenService.refresh_access_token, hfind] at hok
  | some stored =>
    by_cases hexp : stored.expires_at < now
    · simp [TokenService.refresh_access_token, hfind, hexp] at hok
    · simp [TokenService.refresh_access_token, hfind, hexp]

/-- C10 witness: C10 instantiated with the one-record unexpired store. -/
theorem C10_successful_redeem_witness :
    (TokenService.refresh_access_token sampleHash "sec" "raw" 100
        sampleStore).2 = sampleStore :=
  C10_successful_redeem_leaves_store_unchanged sampleHash "sec" "raw" 100
    sampleStore (TokenService.generate_access_token "sec" 42 100, 42) rfl

/-- C3: for a valid unexpired refresh secret, the façade refresh
(`UserService.refresh_tokens`) returns a new access token and the new
refresh secret and revokes the redeemed one: afterwards no record hashing to
the old secret remains, and a second façade refresh with the stale secret
fails with RefreshInvalid (`RefreshTokenNotFound`) no matter which fresh
UUID the second call would have used. -/
theorem C3_refresh_rotates_and_revokes (hashFn : String → String)
    (secret raw new_raw raw2 : String) (now : Int) (store : RefreshStore)
    (stored : RefreshRecord)
    (hfind : RefreshTokenRepository.find_by_token_hash store (hashFn raw)
      = some stored)
    (hexp : ¬ stored.expires_at < now)
    (hfresh : store.records.any (fun r => r.token_hash = hashFn new_raw)
      = false) :
    (UserService.refresh_tokens hashFn secret raw new_raw now store).1
      = .ok (TokenService.generate_access_token secret stored.user_id now,
             new_raw, stored.user_id)
    ∧ RefreshTokenRepository.find_by_token_hash
        (UserService.refresh_tokens hashFn secret raw new_raw now store).2
        (hashFn raw) = none
    ∧ (UserService.refresh_tokens hashFn secret raw raw2 now
          (UserService.refresh_tokens hashFn secret raw new_raw now store).2).1
      = .error .RefreshTokenNotFound := by
  have hred : TokenService.refresh_access_token hashFn secret raw now store
      = (.ok (TokenService.generate_access_token secret stored.user_id now,
              stored.user_id), store) := by
    simp [TokenService.refresh_access_token, hfind, hexp]
  have hissue : TokenService.generate_refresh_token hashFn new_raw
      stored.user_id now store
      = .ok (new_raw,
          { records := store.records ++
              [{ id := store.next_id, user_id := stored.user_id,
                 token_hash := hashFn new_raw,
                 expires_at := now + REFRESH_TOKEN_EXPIRATION_DAYS * 86400,
                 created_at := now }],
            next_id := store.next_id + 1 }) := by
    simp [TokenService.generate_refresh_token, RefreshTokenRepository.create,
      hfresh]
  have hmain : UserService.refresh_tokens hashFn secret raw new_raw now store
      = (.ok (TokenService.generate_access_token secret stored.user_id now,
              new_raw, stored.user_id),
         { records := (store.records ++
             [({ id := store.next_id, user_id := stored.user_id,
                 token_hash := hashFn new_raw,
                 expires_at := now + REFRESH_TOKEN_EXPIRATION_DAYS * 86400,
                 created_at := now } : RefreshRecord)]).filter
               (fun r => ¬ r.token_hash = hashFn raw),
           next_id := store.next_id + 1 }) := by
    simp only [UserService.refresh_tokens, hred, hissue]
    rfl
  have hnone : RefreshTokenRepository.find_by_token_hash
      { records := (store.records ++
          [({ id := store.next_id, user_id := stored.user_id,
              token_hash := hashFn new_raw,
              expires_at := now + REFRESH_TOKEN_EXPIRATION_DAYS * 86400,
              created_at := now } : RefreshRecord)]).filter
            (fun r => ¬ r.token_hash = hashFn raw),
        next_id := store.next_id + 1 } (hashFn raw) = none :=
    find?_hash_filter_ne _ (hashFn raw)
  refine ⟨by rw [hmain], by rw [hmain]; exact hnone, ?_⟩
  rw [hmain, refresh_tokens_not_found hashFn secret raw raw2 now _ hnone]

/-- C3 witness: C3 instantiated with the one-record unexpired store. -/
theorem C3_refresh_rotation_witness :
    (UserService.refresh_tokens sampleHash "sec" "raw" "new" 100
        sampleStore).1
      = .ok (TokenService.generate_access_token "sec" 42 100, "new", 42)
    ∧ RefreshTokenRepository.find_by_token_hash
        (UserService.refresh_tokens sampleHash "sec" "raw" "new" 100
          sampleStore).2 (sampleHash "raw") = none
    ∧ (UserService.refresh_tokens sampleHash "sec" "raw" "other" 100
          (UserService.refresh_tokens sampleHash "sec" "raw" "new" 100
            sampleStore).2).1
      = .error .RefreshTokenNotFound :=
  C3_refresh_rotates_and_revokes sampleHash "sec" "raw" "new" "other" 100
    sampleStore sampleRecord (by decide) (by decide) (by decide)

/-- C5: once an OAuth link matching `(provider, provider_user_id)` exists,
`UserService.oauth_login` is idempotent for that pair: the call returns the
link's owning user unchanged — carrying the stored email and username, not
the incoming ones — creates no new `User` or `OAuthLink` row, and a repeated
call with the same pair again returns the same user id. -/
theorem C5_oauth_login_idempotent_on_linked_pair (hashFn : String → String)
    (secret : String) (req : OAuthLoginRequest) (raw1 raw2 : String)
    (now1 now2 : Int) (db : Db) (link : OAuthRow) (owner : UserRow)
    (hlink : OAuthAccountRepository.find_by_provider_and_id db req.provider
      req.provider_user_id = some link)
    (howner : UserRepository.find_by_id db link.user_id = some owner)
    (hfresh1 : db.refresh.records.any (fun r => r.token_hash = hashFn raw1)
      = false)
    (hfresh2 : db.refresh.records.any (fun r => r.token_hash = hashFn raw2)
      = false)
    (hne : ¬ hashFn raw1 = hashFn raw2) :
    (UserService.oauth_login hashFn secret req raw1 now1 db).1
      = .ok ({ user := UserResponse.fromUser owner },
             TokenService.generate_access_token secret owner.id now1, raw1)
    ∧ (UserService.oauth_login hashFn secret req raw1 now1 db).2.users
      = db.users
    ∧ (UserService.oauth_login hashFn secret req raw1 now1 db).2.oauth_accounts
      = db.oauth_accounts
    ∧ (UserService.oauth_login hashFn secret req raw2 now2
          (UserService.oauth_login hashFn secret req raw1 now1 db).2).1
      = .ok ({ user := UserResponse.fromUser owner },
             TokenService.generate_access_token secret owner.id now2, raw2) := by
  have h1 := oauth_login_linked_eq hashFn secret req raw1 now1 db link owner
    hlink howner hfresh1
  have hlink2 : OAuthAccountRepository.find_by_provider_and_id
      (UserService.oauth_login hashFn secret req raw1 now1 db).2 req.provider
      req.provider_user_id = some link := by
    rw [h1]; exact hlink
  have howner2 : UserRepository.find_by_id
      (UserService.oauth_login hashFn secret req raw1 now1 db).2 link.user_id
      = some owner := by
    rw [h1]; exact howner
  have hfresh2b : (UserService.oauth_login hashFn secret req raw1 now1
      db).2.refresh.records.any (fun r => r.token_hash = hashFn raw2)
      = false := by
    rw [h1]
    simp [hfresh2, hne]
  have h2 := oauth_login_linked_eq hashFn secret req raw2 now2
    (UserService.oauth_login hashFn secret req raw1 now1 db).2 link owner
    hlink2 howner2 hfresh2b
  exact ⟨by rw [h1], by rw [h1], by rw [h1], by rw [h2]⟩

/-- C5 witness: the repeated-call conjunct of C5 at concrete inputs; the
stored user `sampleUser` is returned even though `sampleReq` carries a
different email and username. -/
theorem C5_oauth_login_idempotent_witness :
    (UserService.oauth_login sampleHash "sec" sampleReq "r2" 200
        (UserService.oauth_login sampleHash "sec" sampleReq "r1" 100
          sampleDb).2).1
      = .ok ({ user := UserResponse.fromUser sampleUser },
             TokenService.generate_access_token "sec" 7 200, "r2") :=
  (C5_oauth_login_idempotent_on_linked_pair sampleHash "sec" sampleReq
    "r1" "r2" 100 200 sampleDb sampleLink sampleUser
    (by decide) (by decide) (by decide) (by decide) (by decide)).2.2.2

/-- C9: issuing a refresh session persists only the digest `hashFn raw` of
the raw secret: the inserted row's `token_hash` is `hashFn raw`, the raw
value appears only in the return value handed to the caller, and — given
that the digest differs from the raw (true for any SHA-256 hex digest of a
UUID) and no pre-existing row carries the raw — no row of the resulting
store contains the raw secret in its hash column, so no lookup can ever
return it. -/
theorem C9_only_digest_persisted (hashFn : String → String) (raw : String)
    (uid now : Int) (store : RefreshStore)
    (hfresh : store.records.any (fun r => r.token_hash = hashFn raw) = false)
    (hdigest : ¬ hashFn raw = raw)
    (hnoraw : ∀ r ∈ store.records, ¬ r.token_hash = raw) :
    TokenService.generate_refresh_token hashFn raw uid now store
      = .ok (raw,
          { records := store.records ++
              [({ id := store.next_id, user_id := uid,
                  token_hash := hashFn raw,
                  expires_at := now + REFRESH_TOKEN_EXPIRATION_DAYS * 86400,
                  created_at := now } : RefreshRecord)],
            next_id := store.next_id + 1 })
    ∧ ∀ r ∈ store.records ++
        [({ id := store.next_id, user_id := uid, token_hash := hashFn raw,
            expires_at := now + REFRESH_TOKEN_EXPIRATION_DAYS * 86400,
            created_at := now } : RefreshRecord)], ¬ r.token_hash = raw := by
  refine ⟨by simp [TokenService.generate_refresh_token,
    RefreshTokenRepository.create, hfresh], ?_⟩
  intro r hr
  rcases List.mem_append.mp hr with hmem | hmem
  · exact hnoraw r hmem
  · have hr' : r = { id := store.next_id, user_id := uid,
                     token_hash := hashFn raw,
                     expires_at := now + REFRESH_TOKEN_EXPIRATION_DAYS * 86400,
                     created_at := now } := by simpa using hmem
    subst hr'
    simpa using hdigest

/-- C9 witness: the issuance conjunct of C9 on the empty store. -/
theorem C9_only_digest_persisted_witness :
    TokenService.generate_refresh_token sampleHash "raw" 42 0 emptyStore
      = .ok ("raw",
          { records := emptyStore.records ++
              [({ id := emptyStore.next_id, user_id := 42,
                  token_hash := sampleHash "raw",
                  expires_at := 0 + REFRESH_TOKEN_EXPIRATION_DAYS * 86400,
                  created_at := 0 } : RefreshRecord)],
            next_id := emptyStore.next_id + 1 }) :=
  (C9_only_digest_persisted sampleHash "raw" 42 0 emptyStore
    (by decide) (by decide) (by decide)).1

/-- C6: if a login with provider `req1.provider` created a user for a
previously unseen email, a later login with a different
`(provider, provider_user_id)` pair but the same email resolves to that same
user id: the second call returns the user created by the first call, creates
no second `User` row, and attaches exactly one new `OAuthLink` owned by that
user. -/
theorem C6_same_email_links_to_existing_user (hashFn : String → String)
    (secret : String) (req1 req2 : OAuthLoginRequest) (raw1 raw2 : String)
    (now1 now2 : Int) (db : Db)
    (h1link : OAuthAccountRepository.find_by_provider_and_id db req1.provider
      req1.provider_user_id = none)
    (h1email : UserRepository.find_by_email db req1.email = none)
    (h1uniq : db.users.any
      (fun v => v.username = req1.username ∨ v.email = req1.email) = false)
    (hfresh1 : db.refresh.records.any (fun r => r.token_hash = hashFn raw1)
      = false)
    (hsameemail : req2.email = req1.email)
    (h2link : OAuthAccountRepository.find_by_provider_and_id db req2.provider
      req2.provider_user_id = none)
    (hpair : ¬ (req1.provider = req2.provider
      ∧ req1.provider_user_id = req2.provider_user_id))
    (hfresh2 : db.refresh.records.any (fun r => r.token_hash = hashFn raw2)
      = false)
    (hne : ¬ hashFn raw1 = hashFn raw2) :
    (UserService.oauth_login hashFn secret req1 raw1 now1 db).1
      = .ok ({ user := UserResponse.fromUser
                 ({ id := db.next_user_id, username := req1.username,
                    email := req1.email, password_hash := none,
                    created_at := now1, updated_at := now1 } : UserRow) },
             TokenService.generate_access_token secret db.next_user_id now1,
             raw1)
    ∧ (UserService.oauth_login hashFn secret req2 raw2 now2
          (UserService.oauth_login hashFn secret req1 raw1 now1 db).2).1
      = .ok ({ user := UserResponse.fromUser
                 ({ id := db.next_user_id, username := req1.username,
                    email := req1.email, password_hash := none,
                    created_at := now1, updated_at := now1 } : UserRow) },
             TokenService.generate_access_token secret db.next_user_id now2,
             raw2)
    ∧ (UserService.oauth_login hashFn secret req2 raw2 now2
          (UserService.oauth_login hashFn secret req1 raw1 now1 db).2).2.users
      = (UserService.oauth_login hashFn secret req1 raw1 now1 db).2.users
    ∧ (UserService.oauth_login hashFn secret req2 raw2 now2
          (UserService.oauth_login hashFn secret req1 raw1 now1
            db).2).2.oauth_accounts
      = (UserService.oauth_login hashFn secret req1 raw1 now1
          db).2.oauth_accounts ++
        [({ id := db.next_oauth_id + 1, user_id := db.next_user_id,
            provider := req2.provider,
            provider_user_id := req2.provider_user_id,
            created_at := now2, updated_at := now2 } : OAuthRow)] := by
  have h1 := oauth_login_new_user_eq hashFn secret req1 raw1 now1 db
    h1link h1email h1uniq hfresh1
  have hlink2 : OAuthAccountRepository.find_by_provider_and_id
      (UserService.oauth_login hashFn secret req1 raw1 now1 db).2
      req2.provider req2.provider_user_id = none := by
    rw [h1]
    refine List.find?_eq_none.mpr ?_
    intro x hx
    rcases List.mem_append.mp hx with hmem | hmem
    · exact List.find?_eq_none.mp h2link x hmem
    · have hx2 : x = ({ id := db.next_oauth_id, user_id := db.next_user_id,
                        provider := req1.provider,
                        provider_user_id := req1.provider_user_id,
                        created_at := now1, updated_at := now1 } : OAuthRow) := by
        simpa using hmem
      subst hx2
      simpa using hpair
  have hemail2 : UserRepository.find_by_email
      (UserService.oauth_login hashFn secret req1 raw1 now1 db).2 req2.email
      = some ({ id := db.next_user_id, username := req1.username,
                email := req1.email, password_hash := none,
                created_at := now1, updated_at := now1 } : UserRow) := by
    rw [h1, hsameemail]
    show (db.users ++
        [({ id := db.next_user_id, username := req1.username,
            email := req1.email, password_hash := none,
            created_at := now1, updated_at := now1 } : UserRow)]).find?
      (fun u => u.email = req1.email) = _
    rw [find?_append_of_left_none _ _ _ h1email]
    simp [List.find?]
  have hfresh2b : (UserService.oauth_login hashFn secret req1 raw1 now1
      db).2.refresh.records.any (fun r => r.token_hash = hashFn raw2)
      = false := by
    rw [h1]
    simp [hfresh2, hne]
  have h2 := oauth_login_email_linked_eq hashFn secret req2 raw2 now2
    (UserService.oauth_login hashFn secret req1 raw1 now1 db).2
    ({ id := db.next_user_id, username := req1.username,
       email := req1.email, password_hash := none,
       created_at := now1, updated_at := now1 } : UserRow)
    hlink2 hemail2 hfresh2b
  refine ⟨by rw [h1], by rw [h2], by rw [h2], ?_⟩
  rw [h2, h1]

/-- C6 witness: the second-login conjunct of C6 starting from the empty
database — the kakao login under the email of the user the google login
created resolves to that same user. -/
theorem C6_same_email_witness :
    (UserService.oauth_login sampleHash "sec" reqB "r2" 20
        (UserService.oauth_login sampleHash "sec" reqA "r1" 10 emptyDb).2).1
      = .ok ({ user := UserResponse.fromUser
                 ({ id := emptyDb.next_user_id, username := reqA.username,
                    email := reqA.email, password_hash := none,
                    created_at := 10, updated_at := 10 } : UserRow) },
             TokenService.generate_access_token "sec" emptyDb.next_user_id 20,
             "r2") :=
  (C6_same_email_links_to_existing_user sampleHash "sec" reqA reqB "r1" "r2"
    10 20 emptyDb (by decide) (by decide) (by decide) (by decide) (by decide)
    (by decide) (by decide) (by decide) (by decide)).2.1
